import Mathlib

/-!
Shallow embedding of `app/services/transcript_service.py` and
`app/api/routes.py` of the youtube-transcript service.

The third-party captions-retrieval capability (`youtube_transcript_api`) is an
external collaborator: we model it as an oracle (`CaptionsApi`) whose
operations either return a value or fail with an exception of a given kind
(`TranscriptsDisabled`, `NoTranscriptFound`, or any other exception).  The
repository's own control flow — the fallback chain of `get_transcript`, the
URL regexes of `extract_video_id`, the formatting of `format_transcript`, the
batch loop of `process_multiple_videos`, and the `/process` route handler —
is translated statement by statement.
-/

namespace YT

/-- Kind of exception raised by the captions-retrieval capability:
`TranscriptsDisabled`, `NoTranscriptFound`, or any other `Exception`. -/
inductive ErrKind
  | disabled
  | notFound
  | other
deriving DecidableEq, Repr

/-- A raised exception: its kind and its message (`str(e)`). -/
structure Failure where
  kind : ErrKind
  msg : String
deriving DecidableEq, Repr

/-- One caption entry as used by the service: `{'start': seconds, 'text': text}`
(the `duration` field is never read by this code). `start` is modelled as an
exact rational. -/
structure CaptionEntry where
  start : ℚ
  text : String
deriving DecidableEq, Repr

/-- A transcript track object returned by the capability.  `fetch` models
`track.fetch()`; `translateFetch` models `track.translate('en').fetch()` —
the two calls always appear consecutively in the source, and the chain's
handlers observe only the combined success value or the first raised
exception, so the pair is modelled as one fallible operation. -/
structure Track where
  language_code : String
  fetch : Except Failure (List CaptionEntry)
  translateFetch : Except Failure (List CaptionEntry)

/-- The object returned by `YouTubeTranscriptApi.list_transcripts(video_id)`:
its two track lists and the four finder methods the service calls on it.
The finders are operations of the external capability, so they are oracle
fields. -/
structure TranscriptList where
  manual_transcripts : List Track
  generated_transcripts : List Track
  /-- `transcript_list.find_transcript(['en'])`: exact target-language track,
  manual or generated, whichever the library's list search finds first. -/
  find_transcript_en : Except Failure Track
  /-- `transcript_list.find_generated_transcript(['en'])`: generated-only track
  in the target language. -/
  find_generated_transcript_en : Except Failure Track
  /-- `transcript_list.find_manually_created_transcript()`. -/
  find_manually_created_transcript : Except Failure Track
  /-- `transcript_list.find_generated_transcript()` (no language argument). -/
  find_generated_transcript_any : Except Failure Track

/-- The captions-retrieval capability for one video id: the direct fetch
`YouTubeTranscriptApi.get_transcript(video_id)` and
`YouTubeTranscriptApi.list_transcripts(video_id)`. -/
structure CaptionsApi where
  get_transcript : Except Failure (List CaptionEntry)
  list_transcripts : Except Failure TranscriptList

/-- The Python value returned by `TranscriptService.get_transcript`: either a
list of caption entries (success) or a dict holding an `"error"` key and
optionally a `"details"` key (failure).  No other shape is ever returned. -/
inductive PyResult
  | entries (es : List CaptionEntry)
  | errorDict (error : String) (details : Option String)
deriving DecidableEq, Repr

/-- Steps of the fallback chain, recorded in the order the code attempts
them (`directFetch` = attempt 1 at line 121, `listTracks` = the
`list_transcripts` call at line 129, the rest are the five track-based
strategies of lines 140-175). -/
inductive Step
  | directFetch
  | listTracks
  | findEn
  | findGeneratedEn
  | findManualAny
  | findGeneratedAny
  | lastResort
deriving DecidableEq, Repr

/-- The outer exception handlers of `get_transcript` (lines 180-195): a
`TranscriptsDisabled`, `NoTranscriptFound` or generic exception reaching the
outer `try` produces the corresponding error dict. -/
def handleOuter (f : Failure) : PyResult :=
  match f.kind with
  | .disabled =>
      .errorDict "Transcripts are disabled for this video"
        (some "The video owner has disabled subtitles/closed captions. Please try a different video that has captions enabled.")
  | .notFound =>
      .errorDict "No transcript found"
        (some "Could not find any transcripts for this video after trying multiple methods. Please verify that the video has captions available.")
  | .other =>
      .errorDict ("Error fetching transcript: " ++ f.msg) none

/-- Body of the first track strategy (lines 141-144):
`transcript_list.find_transcript(['en'])` then `.fetch()`; the first raised
exception propagates. -/
def strat0 (tl : TranscriptList) : Except Failure (List CaptionEntry) :=
  match tl.find_transcript_en with
  | .ok tr => tr.fetch
  | .error f => .error f

/-- Body of the second track strategy (lines 147-150):
`find_generated_transcript(['en'])` then `.fetch()`. -/
def strat1 (tl : TranscriptList) : Except Failure (List CaptionEntry) :=
  match tl.find_generated_transcript_en with
  | .ok tr => tr.fetch
  | .error f => .error f

/-- Body of the third track strategy (lines 153-158):
`find_manually_created_transcript()` then `.translate('en').fetch()`. -/
def strat2 (tl : TranscriptList) : Except Failure (List CaptionEntry) :=
  match tl.find_manually_created_transcript with
  | .ok tr => tr.translateFetch
  | .error f => .error f

/-- Body of the fourth track strategy (lines 161-166):
`find_generated_transcript()` then `.translate('en').fetch()`. -/
def strat3 (tl : TranscriptList) : Except Failure (List CaptionEntry) :=
  match tl.find_generated_transcript_any with
  | .ok tr => tr.translateFetch
  | .error f => .error f

/-- Body of the last-resort strategy (lines 168-178): take the first track of
`manual_transcripts + generated_transcripts` and `.translate('en').fetch()`;
if the combined list is empty, control falls through to
`raise NoTranscriptFound("No transcript found after trying all methods")`. -/
def strat4 (tl : TranscriptList) : Except Failure (List CaptionEntry) :=
  match tl.manual_transcripts ++ tl.generated_transcripts with
  | [] => .error ⟨.notFound, "No transcript found after trying all methods"⟩
  | tr :: _ => tr.translateFetch

/-- Last-resort block: any exception here (including `NoTranscriptFound`)
escapes to the outer handlers — there is no further inner `except`. -/
def blockE (tl : TranscriptList) : PyResult × List Step :=
  (match strat4 tl with
   | .ok es => .entries es
   | .error f => handleOuter f, [Step.lastResort])

/-- Fourth `try` block (lines 160-175): on `NoTranscriptFound` the handler
runs the last resort; any other exception escapes to the outer handlers. -/
def blockD (tl : TranscriptList) : PyResult × List Step :=
  match strat3 tl with
  | .ok es => (.entries es, [Step.findGeneratedAny])
  | .error f =>
      if f.kind = .notFound then
        ((blockE tl).1, Step.findGeneratedAny :: (blockE tl).2)
      else (handleOuter f, [Step.findGeneratedAny])

/-- Third `try` block (lines 152-175). -/
def blockC (tl : TranscriptList) : PyResult × List Step :=
  match strat2 tl with
  | .ok es => (.entries es, [Step.findManualAny])
  | .error f =>
      if f.kind = .notFound then
        ((blockD tl).1, Step.findManualAny :: (blockD tl).2)
      else (handleOuter f, [Step.findManualAny])

/-- Second `try` block (lines 146-175). -/
def blockB (tl : TranscriptList) : PyResult × List Step :=
  match strat1 tl with
  | .ok es => (.entries es, [Step.findGeneratedEn])
  | .error f =>
      if f.kind = .notFound then
        ((blockC tl).1, Step.findGeneratedEn :: (blockC tl).2)
      else (handleOuter f, [Step.findGeneratedEn])

/-- First `try` block of the track chain (lines 140-175): only a
`NoTranscriptFound` falls through to the next strategy; every other
exception escapes to the outer handlers. -/
def blockA (tl : TranscriptList) : PyResult × List Step :=
  match strat0 tl with
  | .ok es => (.entries es, [Step.findEn])
  | .error f =>
      if f.kind = .notFound then
        ((blockB tl).1, Step.findEn :: (blockB tl).2)
      else (handleOuter f, [Step.findEn])

/-- The resolver chain of `get_transcript` for an extracted video id
(lines 117-195), instrumented with the list of steps attempted, in order.
Attempt 1 (direct fetch) is wrapped in `except Exception`, so ANY failure of
it falls through to `list_transcripts`; a failure of `list_transcripts`
itself reaches the outer handlers directly. -/
def resolveChain (api : CaptionsApi) : PyResult × List Step :=
  match api.get_transcript with
  | .ok es => (.entries es, [Step.directFetch])
  | .error _ =>
      match api.list_transcripts with
      | .error f => (handleOuter f, [Step.directFetch, Step.listTracks])
      | .ok tl =>
          ((blockA tl).1, Step.directFetch :: Step.listTracks :: (blockA tl).2)

/-- Characters of the regex class `[0-9A-Za-z_-]`. -/
def isIdChar (c : Char) : Bool :=
  c.isAlpha || c.isDigit || c = '_' || c = '-'

/-- Match `([0-9A-Za-z_-]){11}` at the head of `l`, returning the captured
group.  (In pattern 1 the trailing `.*` always matches and captures nothing.) -/
def takeId11 (l : List Char) : Option (List Char) :=
  let v := l.take 11
  if v.length = 11 && v.all isIdChar then some v else none

/-- Try regex pattern 1, `(?:v=|\/)([0-9A-Za-z_-]{11}).*`, anchored at the
head: the alternation tries `v=` first, then `/`. -/
def matchP1At : List Char → Option (List Char)
  | 'v' :: '=' :: rest => takeId11 rest
  | '/' :: rest => takeId11 rest
  | _ => none

/-- Try regex pattern 2, `(?:embed\/)([0-9A-Za-z_-]{11})`, anchored at the head. -/
def matchP2At : List Char → Option (List Char)
  | 'e' :: 'm' :: 'b' :: 'e' :: 'd' :: '/' :: rest => takeId11 rest
  | _ => none

/-- Try regex pattern 3, `(?:youtu\.be\/)([0-9A-Za-z_-]{11})`, anchored at the head. -/
def matchP3At : List Char → Option (List Char)
  | 'y' :: 'o' :: 'u' :: 't' :: 'u' :: '.' :: 'b' :: 'e' :: '/' :: rest => takeId11 rest
  | _ => none

/-- `re.search`: try the anchored matcher at every position, left to right. -/
def searchBy (m : List Char → Option (List Char)) : List Char → Option (List Char)
  | [] => m []
  | c :: rest =>
      match m (c :: rest) with
      | some r => some r
      | none => searchBy m rest

/-- `TranscriptService.extract_video_id` (lines 62-75): try the three patterns
in order with `re.search`; return the captured group of the first pattern
that matches anywhere, else `None`. -/
def extract_video_id (url : String) : Option String :=
  match searchBy matchP1At url.data with
  | some v => some (String.mk v)
  | none =>
      match searchBy matchP2At url.data with
      | some v => some (String.mk v)
      | none =>
          match searchBy matchP3At url.data with
          | some v => some (String.mk v)
          | none => none

/-- The error dict of line 114: `{"error": "Invalid YouTube URL format"}`. -/
def invalidUrlDict : PyResult := .errorDict "Invalid YouTube URL format" none

/-- `TranscriptService.get_transcript` (lines 109-195): extract the video id
(returning the invalid-URL dict when extraction fails) and run the fallback
chain against the capability for that id. -/
def get_transcript (api : String → CaptionsApi) (url : String) : PyResult :=
  match extract_video_id url with
  | none => invalidUrlDict
  | some video_id => (resolveChain (api video_id)).1

/-- The steps the chain attempts for `url`, in order (empty when the URL is
rejected before any capability call). -/
def attemptedSteps (api : String → CaptionsApi) (url : String) : List Step :=
  match extract_video_id url with
  | none => []
  | some video_id => (resolveChain (api video_id)).2

/-- A `<meta …>` tag found by BeautifulSoup; indexing `tag['content']` raises
`KeyError` when the attribute is absent, modelled by `content = none`. -/
structure MetaTag where
  content : Option String

/-- The parsed watch page: the `og:title` and `og:site_name` meta tags, each
possibly absent. -/
structure Page where
  ogTitle : Option MetaTag
  ogSiteName : Option MetaTag

/-- Outcome of `requests.get(url)` + `raise_for_status()`: any network error
or non-200 status is a raised exception; otherwise a parsed page. -/
inductive FetchOutcome
  | failure (msg : String)
  | success (page : Page)

/-- The metadata dict: `{'title': …, 'channel': …, 'url': …}`. -/
structure VideoMetadata where
  title : String
  channel : String
  url : String
deriving DecidableEq, Repr

/-- `TranscriptService.get_video_metadata` (lines 77-107): everything runs in
one `try`; a fetch failure or a `KeyError` from `tag['content']` lands in the
`except`, which returns the placeholder dict.  A missing tag (`find` returns
`None`) is handled inline with a placeholder for that field only. -/
def get_video_metadata (video_id : String) (outcome : FetchOutcome) : VideoMetadata :=
  let url := "https://www.youtube.com/watch?v=" ++ video_id
  let fallback : VideoMetadata := ⟨"Video " ++ video_id, "Unknown Channel", url⟩
  match outcome with
  | .failure _ => fallback
  | .success soup =>
      let titleR : Except Unit String :=
        match soup.ogTitle with
        | some tag =>
            match tag.content with
            | some c => .ok c
            | none => .error ()
        | none => .ok ("Video " ++ video_id)
      let channelR : Except Unit String :=
        match soup.ogSiteName with
        | some tag =>
            match tag.content with
            | some c => .ok c
            | none => .error ()
        | none => .ok "Unknown Channel"
      match titleR, channelR with
      | .ok title, .ok channel => ⟨title, channel, url⟩
      | _, _ => fallback

/-- Python `f"{i:02d}"`: pad to width 2 with `0`; a negative one-digit value
already occupies two characters with its sign. -/
def intPad2 (i : ℤ) : String :=
  if 0 ≤ i ∧ i < 10 then "0" ++ toString i else toString i

/-- `int(entry['start'] // 60)`: float floor-division by 60, exact on ℚ. -/
def pyMinutes (q : ℚ) : ℤ := ⌊q / 60⌋

/-- `int(entry['start'] % 60)`: Python `%` yields `q - 60*⌊q/60⌋ ∈ [0, 60)`,
and `int` truncates it (equivalently floors it, as it is nonnegative). -/
def pySeconds (q : ℚ) : ℤ := ⌊q - 60 * ((pyMinutes q : ℤ) : ℚ)⌋

/-- The `f"{minutes:02d}:{seconds:02d}"` timestamp of lines 207-209. -/
def timestamp (e : CaptionEntry) : String :=
  intPad2 (pyMinutes e.start) ++ ":" ++ intPad2 (pySeconds e.start)

/-- The header built by lines 200-204. -/
def formatHeader (metadata : VideoMetadata) : String :=
  "Brought to you by Podflare\n\n" ++
  "Video: " ++ metadata.title ++ "\n" ++
  "Channel: " ++ metadata.channel ++ "\n" ++
  "URL: " ++ metadata.url ++ "\n\n" ++
  "Transcript:\n\n"

/-- `TranscriptService.format_transcript` (lines 197-212): the header, then
one `[MM:SS] text` line per entry appended in order. -/
def format_transcript (transcript : List CaptionEntry) (metadata : VideoMetadata) : String :=
  transcript.foldl
    (fun acc entry => acc ++ "[" ++ timestamp entry ++ "] " ++ entry.text ++ "\n")
    (formatHeader metadata)

/-- One value of the batch-result dict: `{"status": "success", "transcript": …}`
or `{"status": "error", "error": …, "details": …}`. -/
inductive BatchEntry
  | success (transcript : List CaptionEntry)
  | error (error : String) (details : String)
deriving DecidableEq, Repr

/-- Lines 238-248: classify `get_transcript`'s result by `isinstance(_, list)`;
the error branch reads `transcript.get("error", "Unknown error")` and
`transcript.get("details", "")` (the dicts built by `get_transcript` always
carry `"error"`; a missing `"details"` defaults to the empty string). -/
def classify (r : PyResult) : BatchEntry :=
  match r with
  | .entries es => .success es
  | .errorDict e d => .error e (d.getD "")

/-- Python dict assignment `results[url] = v`: overwrite in place when the key
exists, else append the new binding. -/
def dictInsert (m : List (String × BatchEntry)) (k : String) (v : BatchEntry) :
    List (String × BatchEntry) :=
  if m.any (fun p => p.1 = k) then
    m.map (fun p => if p.1 = k then (k, v) else p)
  else m ++ [(k, v)]

/-- `TranscriptService.process_multiple_videos` (lines 232-249): fold over the
URLs in order, storing each URL's classified result in the dict. -/
def process_multiple_videos (api : String → CaptionsApi) (urls : List String) :
    List (String × BatchEntry) :=
  urls.foldl (fun results url => dictInsert results url (classify (get_transcript api url))) []

/-- The parsed JSON body of a `POST /process` request: `urls` is the value of
the `"urls"` key, `none` when the key is absent. -/
structure ProcessRequest where
  urls : Option (List String)

/-- The route's response: `ok` is the 200 `jsonify(results)`, `badRequest` is
the 400 `jsonify({"error": …})`. -/
inductive ApiResponse
  | ok (results : List (String × BatchEntry))
  | badRequest (error : String)
deriving DecidableEq, Repr

/-- `process_videos` in `app/api/routes.py` (lines 57-69), instrumented with
the list of argument lists passed to `process_multiple_videos`:
`data.get('urls', [])` defaults an absent key to `[]`, and `if not video_urls`
rejects an empty list with the 400 response before the orchestrator runs. -/
def process_videos (api : String → CaptionsApi) (req : ProcessRequest) :
    ApiResponse × List (List String) :=
  let video_urls := req.urls.getD []
  if video_urls = [] then (.badRequest "No URLs provided", [])
  else (.ok (process_multiple_videos api video_urls), [video_urls])

/-- Does the spec shape `watch?v=<id>` occur at this position? -/
def watchShapeAt (l : List Char) : Bool :=
  (['w', 'a', 't', 'c', 'h', '?', 'v', '='].isPrefixOf l) && (takeId11 (l.drop 8)).isSome

/-- Does the spec shape `youtu.be/<id>` occur at this position? -/
def youtuBeShapeAt (l : List Char) : Bool :=
  (['y', 'o', 'u', 't', 'u', '.', 'b', 'e', '/'].isPrefixOf l) && (takeId11 (l.drop 9)).isSome

/-- Does the spec shape `embed/<id>` occur at this position? -/
def embedShapeAt (l : List Char) : Bool :=
  (['e', 'm', 'b', 'e', 'd', '/'].isPrefixOf l) && (takeId11 (l.drop 6)).isSome

/-- Does `p` hold at some suffix of the list? -/
def anySuffix (p : List Char → Bool) : List Char → Bool
  | [] => p []
  | c :: rest => p (c :: rest) || anySuffix p rest

/-- Modelled from the spec: a URL is "recognized" when one of the three spec
shapes (`watch?v=<id>`, `youtu.be/<id>`, `embed/<id>`, with an 11-character
identifier) occurs in it. -/
def specRecognized (s : String) : Bool :=
  anySuffix watchShapeAt s.data || anySuffix youtuBeShapeAt s.data ||
    anySuffix embedShapeAt s.data

/-- Concatenation of a list of strings. -/
def strJoin : List String → String
  | [] => ""
  | s :: rest => s ++ strJoin rest

/-- Modelled from the spec: the `[MM:SS] text` line, where MM:SS comes from
`start` truncated to whole seconds, minutes = that total div 60 (not reduced
modulo 60), seconds = that total mod 60, both zero-padded to two digits. -/
def specLine (e : CaptionEntry) : String :=
  "[" ++ intPad2 (⌊e.start⌋ / 60) ++ ":" ++ intPad2 (⌊e.start⌋ % 60) ++ "] " ++
    e.text ++ "\n"

/-- Modelled from the spec: fixed banner, metadata block, then one timestamped
line per entry, in order. -/
def specFormat (transcript : List CaptionEntry) (metadata : VideoMetadata) : String :=
  formatHeader metadata ++ strJoin (transcript.map specLine)

/-- The five track-based strategies in the order the source nests them. -/
def trackSteps : List Step :=
  [Step.findEn, Step.findGeneratedEn, Step.findManualAny, Step.findGeneratedAny, Step.lastResort]

theorem blockE_err {tl : TranscriptList} {f : Failure} (h : strat4 tl = .error f) :
    blockE tl = (handleOuter f, [Step.lastResort]) := by
  simp [blockE, h]

theorem blockE_okL {tl : TranscriptList} {es : List CaptionEntry} (h : strat4 tl = .ok es) :
    blockE tl = (.entries es, [Step.lastResort]) := by
  simp [blockE, h]

theorem blockD_okL {tl : TranscriptList} {es : List CaptionEntry} (h : strat3 tl = .ok es) :
    blockD tl = (.entries es, [Step.findGeneratedAny]) := by
  simp [blockD, h]

theorem blockD_nf {tl : TranscriptList} {f : Failure} (h : strat3 tl = .error f)
    (hk : f.kind = .notFound) :
    blockD tl = ((blockE tl).1, Step.findGeneratedAny :: (blockE tl).2) := by
  simp [blockD, h, hk]

theorem blockD_ab {tl : TranscriptList} {f : Failure} (h : strat3 tl = .error f)
    (hk : f.kind ≠ .notFound) :
    blockD tl = (handleOuter f, [Step.findGeneratedAny]) := by
  simp [blockD, h, hk]

theorem blockC_okL {tl : TranscriptList} {es : List CaptionEntry} (h : strat2 tl = .ok es) :
    blockC tl = (.entries es, [Step.findManualAny]) := by
  simp [blockC, h]

theorem blockC_nf {tl : TranscriptList} {f : Failure} (h : strat2 tl = .error f)
    (hk : f.kind = .notFound) :
    blockC tl = ((blockD tl).1, Step.findManualAny :: (blockD tl).2) := by
  simp [blockC, h, hk]

theorem blockC_ab {tl : TranscriptList} {f : Failure} (h : strat2 tl = .error f)
    (hk : f.kind ≠ .notFound) :
    blockC tl = (handleOuter f, [Step.findManualAny]) := by
  simp [blockC, h, hk]

theorem blockB_okL {tl : TranscriptList} {es : List CaptionEntry} (h : strat1 tl = .ok es) :
    blockB tl = (.entries es, [Step.findGeneratedEn]) := by
  simp [blockB, h]

theorem blockB_nf {tl : TranscriptList} {f : Failure} (h : strat1 tl = .error f)
    (hk : f.kind = .notFound) :
    blockB tl = ((blockC tl).1, Step.findGeneratedEn :: (blockC tl).2) := by
  simp [blockB, h, hk]

theorem blockB_ab {tl : TranscriptList} {f : Failure} (h : strat1 tl = .error f)
    (hk : f.kind ≠ .notFound) :
    blockB tl = (handleOuter f, [Step.findGeneratedEn]) := by
  simp [blockB, h, hk]

theorem blockA_okL {tl : TranscriptList} {es : List CaptionEntry} (h : strat0 tl = .ok es) :
    blockA tl = (.entries es, [Step.findEn]) := by
  simp [blockA, h]

theorem blockA_nf {tl : TranscriptList} {f : Failure} (h : strat0 tl = .error f)
    (hk : f.kind = .notFound) :
    blockA tl = ((blockB tl).1, Step.findEn :: (blockB tl).2) := by
  simp [blockA, h, hk]

theorem blockA_ab {tl : TranscriptList} {f : Failure} (h : strat0 tl = .error f)
    (hk : f.kind ≠ .notFound) :
    blockA tl = (handleOuter f, [Step.findEn]) := by
  simp [blockA, h, hk]

theorem chain_direct_ok {api : CaptionsApi} {es : List CaptionEntry}
    (h : api.get_transcript = .ok es) :
    resolveChain api = (.entries es, [Step.directFetch]) := by
  simp [resolveChain, h]

theorem chain_list_err {api : CaptionsApi} {f g : Failure}
    (h1 : api.get_transcript = .error f) (h2 : api.list_transcripts = .error g) :
    resolveChain api = (handleOuter g, [Step.directFetch, Step.listTracks]) := by
  simp [resolveChain, h1, h2]

theorem chain_list_ok {api : CaptionsApi} {f : Failure} {tl : TranscriptList}
    (h1 : api.get_transcript = .error f) (h2 : api.list_transcripts = .ok tl) :
    resolveChain api =
      ((blockA tl).1, Step.directFetch :: Step.listTracks :: (blockA tl).2) := by
  simp [resolveChain, h1, h2]

theorem blockE_trace (tl : TranscriptList) : (blockE tl).2 = [Step.lastResort] := rfl

theorem blockD_trace (tl : TranscriptList) :
    (blockD tl).2 = [Step.findGeneratedAny] ∨
    (blockD tl).2 = [Step.findGeneratedAny, Step.lastResort] := by
  rcases h : strat3 tl with f | es
  · by_cases hk : f.kind = .notFound
    · exact Or.inr (by rw [blockD_nf h hk, blockE_trace])
    · exact Or.inl (by rw [blockD_ab h hk])
  · exact Or.inl (by rw [blockD_okL h])

theorem blockC_trace (tl : TranscriptList) :
    (blockC tl).2 = [Step.findManualAny] ∨
    (blockC tl).2 = [Step.findManualAny, Step.findGeneratedAny] ∨
    (blockC tl).2 = [Step.findManualAny, Step.findGeneratedAny, Step.lastResort] := by
  rcases h : strat2 tl with f | es
  · by_cases hk : f.kind = .notFound
    · rcases blockD_trace tl with hd | hd
      · exact Or.inr (Or.inl (by rw [blockC_nf h hk, hd]))
      · exact Or.inr (Or.inr (by rw [blockC_nf h hk, hd]))
    · exact Or.inl (by rw [blockC_ab h hk])
  · exact Or.inl (by rw [blockC_okL h])

theorem blockB_trace (tl : TranscriptList) :
    (blockB tl).2 = (trackSteps.drop 1).take 1 ∨
    (blockB tl).2 = (trackSteps.drop 1).take 2 ∨
    (blockB tl).2 = (trackSteps.drop 1).take 3 ∨
    (blockB tl).2 = (trackSteps.drop 1).take 4 := by
  rcases h : strat1 tl with f | es
  · by_cases hk : f.kind = .notFound
    · rcases blockC_trace tl with hc | hc | hc
      · exact Or.inr (Or.inl (by rw [blockB_nf h hk, hc]; rfl))
      · exact Or.inr (Or.inr (Or.inl (by rw [blockB_nf h hk, hc]; rfl)))
      · exact Or.inr (Or.inr (Or.inr (by rw [blockB_nf h hk, hc]; rfl)))
    · exact Or.inl (by rw [blockB_ab h hk]; rfl)
  · exact Or.inl (by rw [blockB_okL h]; rfl)

theorem blockA_trace (tl : TranscriptList) :
    ∃ k, 1 ≤ k ∧ k ≤ 5 ∧ (blockA tl).2 = trackSteps.take k := by
  rcases h : strat0 tl with f | es
  · by_cases hk : f.kind = .notFound
    · rcases blockB_trace tl with hb | hb | hb | hb
      · exact ⟨2, by omega, by omega, by rw [blockA_nf h hk, hb]; rfl⟩
      · exact ⟨3, by omega, by omega, by rw [blockA_nf h hk, hb]; rfl⟩
      · exact ⟨4, by omega, by omega, by rw [blockA_nf h hk, hb]; rfl⟩
      · exact ⟨5, by omega, by omega, by rw [blockA_nf h hk, hb]; rfl⟩
    · exact ⟨1, by omega, by omega, by rw [blockA_ab h hk]; rfl⟩
  · exact ⟨1, by omega, by omega, by rw [blockA_okL h]; rfl⟩

/-- Fixture for claim C1: a foreign generated track whose translation works. -/
def tC1good : Track := ⟨"fr", .ok [⟨0, "bonjour"⟩], .ok [⟨0, "hello"⟩]⟩

/-- Fixture for claim C1: an English track whose `fetch()` raises a generic
(non-`NoTranscriptFound`) exception. -/
def tC1bad : Track := ⟨"en", .error ⟨.other, "no connection"⟩, .error ⟨.other, "no connection"⟩⟩

/-- Fixture for claim C1: `find_transcript(['en'])` finds a track whose fetch
then fails, while `find_generated_transcript(['en'])` would succeed. -/
def tlC1 : TranscriptList :=
  ⟨[], [tC1good], .ok tC1bad, .ok tC1good, .error ⟨.notFound, "nf"⟩, .ok tC1good⟩

/-- Fixture for claim C1: direct fetch fails, enumeration succeeds. -/
def apiC1 : CaptionsApi := ⟨.error ⟨.other, "direct failed"⟩, .ok tlC1⟩

/-- Claim C1 is false as stated: with `apiC1`, the first track strategy finds
an English track whose `fetch()` fails with a generic exception; the chain
stops right there (the attempted steps end at `findEn`) and returns the
`Unexpected` error dict, even though the very next strategy
(`find_generated_transcript(['en'])`) would have succeeded.  So a step's
failure that is not a `NoTranscriptFound` does abort the chain before later
steps are tried. -/
theorem C1_counterexample :
    (∃ es, strat1 tlC1 = .ok es) ∧
    (resolveChain apiC1).2 = [Step.directFetch, Step.listTracks, Step.findEn] ∧
    (resolveChain apiC1).1 = .errorDict "Error fetching transcript: no connection" none :=
  ⟨⟨[⟨0, "bonjour"⟩], by rfl⟩, by rfl, by rfl⟩

/-- Claim C1 (amended): step 1's failure, of any kind, always falls through to
the track enumeration; within the enumeration a step's failure falls through
to the next step exactly when it is a `NoTranscriptFound`; a failure of any
other kind (a failed fetch or failed translation of a found track) stops the
chain with the corresponding error dict, leaving the later steps untried. -/
theorem C1_amended_chain (api : CaptionsApi) (f : Failure) (tl : TranscriptList)
    (hget : api.get_transcript = .error f) (hlist : api.list_transcripts = .ok tl) :
    ((resolveChain api).2 = Step.directFetch :: Step.listTracks :: (blockA tl).2 ∧
      Step.findEn ∈ (resolveChain api).2) ∧
    (∀ g, strat0 tl = .error g → g.kind = .notFound →
      Step.findGeneratedEn ∈ (resolveChain api).2) ∧
    (∀ g h', strat0 tl = .error g → g.kind = .notFound →
      strat1 tl = .error h' → h'.kind = .notFound →
      Step.findManualAny ∈ (resolveChain api).2) ∧
    (∀ g h' i', strat0 tl = .error g → g.kind = .notFound →
      strat1 tl = .error h' → h'.kind = .notFound →
      strat2 tl = .error i' → i'.kind = .notFound →
      Step.findGeneratedAny ∈ (resolveChain api).2) ∧
    (∀ g h' i' j', strat0 tl = .error g → g.kind = .notFound →
      strat1 tl = .error h' → h'.kind = .notFound →
      strat2 tl = .error i' → i'.kind = .notFound →
      strat3 tl = .error j' → j'.kind = .notFound →
      Step.lastResort ∈ (resolveChain api).2) ∧
    (∀ g, strat0 tl = .error g → g.kind ≠ .notFound →
      resolveChain api =
        (handleOuter g, [Step.directFetch, Step.listTracks, Step.findEn])) ∧
    (∀ g h', strat0 tl = .error g → g.kind = .notFound →
      strat1 tl = .error h' → h'.kind ≠ .notFound →
      resolveChain api = (handleOuter h',
        [Step.directFetch, Step.listTracks, Step.findEn, Step.findGeneratedEn])) ∧
    (∀ g h' i', strat0 tl = .error g → g.kind = .notFound →
      strat1 tl = .error h' → h'.kind = .notFound →
      strat2 tl = .error i' → i'.kind ≠ .notFound →
      resolveChain api = (handleOuter i',
        [Step.directFetch, Step.listTracks, Step.findEn, Step.findGeneratedEn,
         Step.findManualAny])) ∧
    (∀ g h' i' j', strat0 tl = .error g → g.kind = .notFound →
      strat1 tl = .error h' → h'.kind = .notFound →
      strat2 tl = .error i' → i'.kind = .notFound →
      strat3 tl = .error j' → j'.kind ≠ .notFound →
      resolveChain api = (handleOuter j',
        [Step.directFetch, Step.listTracks, Step.findEn, Step.findGeneratedEn,
         Step.findManualAny, Step.findGeneratedAny])) ∧
    (∀ g h' i' j' k', strat0 tl = .error g → g.kind = .notFound →
      strat1 tl = .error h' → h'.kind = .notFound →
      strat2 tl = .error i' → i'.kind = .notFound →
      strat3 tl = .error j' → j'.kind = .notFound →
      strat4 tl = .error k' →
      resolveChain api = (handleOuter k',
        [Step.directFetch, Step.listTracks, Step.findEn, Step.findGeneratedEn,
         Step.findManualAny, Step.findGeneratedAny, Step.lastResort])) := by
  rw [chain_list_ok hget hlist]
  refine ⟨⟨rfl, ?_⟩, ?_, ?_, ?_, ?_, ?_, ?_, ?_, ?_, ?_⟩
  · rcases blockA_trace tl with ⟨k, hk1, _, htr⟩
    rw [htr]
    rcases k with _ | k
    · omega
    · simp [trackSteps]
  · intro g hg hk
    rw [blockA_nf hg hk]
    simp
    rcases blockB_trace tl with hb | hb | hb | hb <;> rw [hb] <;> simp [trackSteps]
  · intro g h' hg hk hh hk'
    rw [blockA_nf hg hk, blockB_nf hh hk']
    simp
    rcases blockC_trace tl with hc | hc | hc <;> rw [hc] <;> simp
  · intro g h' i' hg hk hh hk' hi hki
    rw [blockA_nf hg hk, blockB_nf hh hk', blockC_nf hi hki]
    simp
    rcases blockD_trace tl with hd | hd <;> rw [hd] <;> simp
  · intro g h' i' j' hg hk hh hk' hi hki hj hkj
    rw [blockA_nf hg hk, blockB_nf hh hk', blockC_nf hi hki, blockD_nf hj hkj,
      blockE_trace]
    simp
  · intro g hg hk
    rw [blockA_ab hg hk]
  · intro g h' hg hk hh hk'
    rw [blockA_nf hg hk, blockB_ab hh hk']
  · intro g h' i' hg hk hh hk' hi hki
    rw [blockA_nf hg hk, blockB_nf hh hk', blockC_ab hi hki]
  · intro g h' i' j' hg hk hh hk' hi hki hj hkj
    rw [blockA_nf hg hk, blockB_nf hh hk', blockC_nf hi hki, blockD_ab hj hkj]
  · intro g h' i' j' k' hg hk hh hk' hi hki hj hkj hs
    rw [blockA_nf hg hk, blockB_nf hh hk', blockC_nf hi hki, blockD_nf hj hkj,
      blockE_err hs]

/-- Fixture for claim C1's witness: every step fails with `NoTranscriptFound`
until the last resort, which also fails. -/
def tlW1 : TranscriptList :=
  ⟨[], [], .error ⟨.notFound, "a"⟩, .error ⟨.notFound, "b"⟩,
   .error ⟨.notFound, "c"⟩, .error ⟨.notFound, "d"⟩⟩

/-- Fixture for claim C1's witness. -/
def apiW1 : CaptionsApi := ⟨.error ⟨.other, "boom"⟩, .ok tlW1⟩

/-- Claim C1 (witness): the amended theorem applied to `apiW1`, where every
strategy fails with `NoTranscriptFound`, shows the chain reaches the last
resort and ends in the `NoTranscriptFound` error dict. -/
theorem C1_witness :
    resolveChain apiW1 = (.errorDict "No transcript found"
      (some "Could not find any transcripts for this video after trying multiple methods. Please verify that the video has captions available."),
      [Step.directFetch, Step.listTracks, Step.findEn, Step.findGeneratedEn,
       Step.findManualAny, Step.findGeneratedAny, Step.lastResort]) := by
  have h := (C1_amended_chain apiW1 ⟨.other, "boom"⟩ tlW1 rfl rfl).2.2.2.2.2.2.2.2.2
  exact h ⟨.notFound, "a"⟩ ⟨.notFound, "b"⟩ ⟨.notFound, "c"⟩ ⟨.notFound, "d"⟩
    ⟨.notFound, "No transcript found after trying all methods"⟩
    rfl rfl rfl rfl rfl rfl rfl rfl rfl

/-- Fixture for claim C2: direct fetch fails; enumeration succeeds and the
English track is found at once. -/
def tC2 : Track := ⟨"en", .ok [⟨0, "hi"⟩], .ok [⟨0, "hi"⟩]⟩

/-- Fixture for claim C2. -/
def tlC2 : TranscriptList := ⟨[tC2], [], .ok tC2, .ok tC2, .ok tC2, .ok tC2⟩

/-- Fixture for claim C2. -/
def apiC2 : CaptionsApi := ⟨.error ⟨.other, "direct failed"⟩, .ok tlC2⟩

/-- Claim C2 is false as stated: after the unconstrained direct fetch (step 1)
fails, the code performs no second, language-constrained direct fetch — its
next action is `list_transcripts`.  With `apiC2` the attempted steps are
exactly `[directFetch, listTracks, findEn]`: a single direct fetch, with the
enumeration immediately second. -/
theorem C2_counterexample :
    (resolveChain apiC2).2 = [Step.directFetch, Step.listTracks, Step.findEn] ∧
    (resolveChain apiC2).2.count Step.directFetch = 1 ∧
    (resolveChain apiC2).2.get? 1 = some Step.listTracks := by
  refine ⟨rfl, ?_, rfl⟩
  decide

/-- Claim C2 (amended): when the unconstrained direct fetch fails (for any
reason), the resolver's next action is enumerating the available transcript
tracks; no further direct fetch happens anywhere in the chain.  (The first
track-based attempt after the enumeration is the target-language lookup
`find_transcript(['en'])`.) -/
theorem C2_amended_next_action (api : CaptionsApi) (f : Failure)
    (hget : api.get_transcript = .error f) :
    ∃ rest, (resolveChain api).2 = Step.directFetch :: Step.listTracks :: rest ∧
      Step.directFetch ∉ rest := by
  rcases hl : api.list_transcripts with g | tl
  · exact ⟨[], by rw [chain_list_err hget hl], by simp⟩
  · refine ⟨(blockA tl).2, by rw [chain_list_ok hget hl], ?_⟩
    rcases blockA_trace tl with ⟨k, _, hk5, htr⟩
    rw [htr]
    interval_cases k <;> simp [trackSteps]

/-- Claim C2 (witness): the amended theorem applied to `apiC2`. -/
theorem C2_witness :
    ∃ rest, (resolveChain apiC2).2 = Step.directFetch :: Step.listTracks :: rest ∧
      Step.directFetch ∉ rest :=
  C2_amended_next_action apiC2 ⟨.other, "direct failed"⟩ rfl

/-- Claim C3: when the direct fetch fails and the track enumeration succeeds,
the attempted track strategies are a prefix of exactly this ordered list —
exact target-language track (`find_transcript(['en'])`), generated-only
target-language track (`find_generated_transcript(['en'])`), any manual track
translated, any generated track translated, first track of the combined
manual+generated list translated — and the first strategy to succeed supplies
the returned caption list, with no later strategy attempted. -/
theorem C3_strategy_order (api : CaptionsApi) (f : Failure) (tl : TranscriptList)
    (hget : api.get_transcript = .error f) (hlist : api.list_transcripts = .ok tl) :
    (∃ k, 1 ≤ k ∧ k ≤ 5 ∧
      (resolveChain api).2 = [Step.directFetch, Step.listTracks] ++ trackSteps.take k) ∧
    (∀ es, strat0 tl = .ok es →
      resolveChain api = (.entries es,
        [Step.directFetch, Step.listTracks] ++ trackSteps.take 1)) ∧
    (∀ g es, strat0 tl = .error g → g.kind = .notFound → strat1 tl = .ok es →
      resolveChain api = (.entries es,
        [Step.directFetch, Step.listTracks] ++ trackSteps.take 2)) ∧
    (∀ g h' es, strat0 tl = .error g → g.kind = .notFound →
      strat1 tl = .error h' → h'.kind = .notFound → strat2 tl = .ok es →
      resolveChain api = (.entries es,
        [Step.directFetch, Step.listTracks] ++ trackSteps.take 3)) ∧
    (∀ g h' i' es, strat0 tl = .error g → g.kind = .notFound →
      strat1 tl = .error h' → h'.kind = .notFound →
      strat2 tl = .error i' → i'.kind = .notFound → strat3 tl = .ok es →
      resolveChain api = (.entries es,
        [Step.directFetch, Step.listTracks] ++ trackSteps.take 4)) ∧
    (∀ g h' i' j' es, strat0 tl = .error g → g.kind = .notFound →
      strat1 tl = .error h' → h'.kind = .notFound →
      strat2 tl = .error i' → i'.kind = .notFound →
      strat3 tl = .error j' → j'.kind = .notFound → strat4 tl = .ok es →
      resolveChain api = (.entries es,
        [Step.directFetch, Step.listTracks] ++ trackSteps.take 5)) := by
  rw [chain_list_ok hget hlist]
  refine ⟨?_, ?_, ?_, ?_, ?_, ?_⟩
  · rcases blockA_trace tl with ⟨k, hk1, hk5, htr⟩
    exact ⟨k, hk1, hk5, by rw [htr]; rfl⟩
  · intro es h0
    rw [blockA_okL h0]
    rfl
  · intro g es h0 hk h1
    rw [blockA_nf h0 hk, blockB_okL h1]
    rfl
  · intro g h' es h0 hk h1 hk1 h2
    rw [blockA_nf h0 hk, blockB_nf h1 hk1, blockC_okL h2]
    rfl
  · intro g h' i' es h0 hk h1 hk1 h2 hk2 h3
    rw [blockA_nf h0 hk, blockB_nf h1 hk1, blockC_nf h2 hk2, blockD_okL h3]
    rfl
  · intro g h' i' j' es h0 hk h1 hk1 h2 hk2 h3 hk3 h4
    rw [blockA_nf h0 hk, blockB_nf h1 hk1, blockC_nf h2 hk2, blockD_nf h3 hk3,
      blockE_okL h4]
    rfl

/-- Fixture for claim C3's witness: the target-language lookup fails with
`NoTranscriptFound`, the generated-only target-language lookup succeeds. -/
def tW3 : Track := ⟨"en", .ok [⟨3, "auto caption"⟩], .ok [⟨3, "auto caption"⟩]⟩

/-- Fixture for claim C3's witness. -/
def tlW3 : TranscriptList :=
  ⟨[], [tW3], .error ⟨.notFound, "nf"⟩, .ok tW3, .error ⟨.notFound, "nf"⟩,
   .error ⟨.notFound, "nf"⟩⟩

/-- Fixture for claim C3's witness. -/
def apiW3 : CaptionsApi := ⟨.error ⟨.other, "direct failed"⟩, .ok tlW3⟩

/-- Claim C3 (witness): with `apiW3` the first strategy fails with
`NoTranscriptFound`, the second succeeds, and the chain returns its captions
having attempted exactly the first two track strategies. -/
theorem C3_witness :
    resolveChain apiW3 = (.entries [⟨3, "auto caption"⟩],
      [Step.directFetch, Step.listTracks] ++ trackSteps.take 2) :=
  (C3_strategy_order apiW3 ⟨.other, "direct failed"⟩ tlW3 (by rfl) (by rfl)).2.2.1
    ⟨.notFound, "nf"⟩ [⟨3, "auto caption"⟩] (by rfl) (by rfl) (by rfl)

/-- Fixture for claim C4: a video with captions disabled — both the direct
fetch and the enumeration raise `TranscriptsDisabled`. -/
def apiC4 : CaptionsApi :=
  ⟨.error ⟨.disabled, "Subtitles are disabled for this video"⟩,
   .error ⟨.disabled, "Subtitles are disabled for this video"⟩⟩

/-- Claim C4 is false as stated: for the disabled video `apiC4` the resolver
does return the distinct `TranscriptsDisabled` error dict, but the chain has
NOT stopped after the direct fetch alone — it went on to attempt the track
enumeration (`list_transcripts`, the code's own "Attempt 2"), which is what
raised the `TranscriptsDisabled` that the outer handler turned into the
error.  The attempted-step list is `[directFetch, listTracks]`, not
`[directFetch]`. -/
theorem C4_counterexample :
    (resolveChain apiC4).1 = .errorDict "Transcripts are disabled for this video"
      (some "The video owner has disabled subtitles/closed captions. Please try a different video that has captions enabled.") ∧
    (resolveChain apiC4).2 ≠ [Step.directFetch] ∧
    Step.listTracks ∈ (resolveChain apiC4).2 := by
  refine ⟨by rfl, ?_, ?_⟩
  · have h : (resolveChain apiC4).2 = [Step.directFetch, Step.listTracks] := by rfl
    rw [h]
    simp
  · have h : (resolveChain apiC4).2 = [Step.directFetch, Step.listTracks] := by rfl
    rw [h]
    simp

/-- Claim C4 (amended): when the capability reports captions disabled (both
the direct fetch and the enumeration raise `TranscriptsDisabled`), the
resolver returns the distinct `TranscriptsDisabled` error dict (not
`NoTranscriptFound`, not `Unexpected`), and no track-based fallback strategy
is attempted: the chain attempted exactly the direct fetch and then the track
enumeration itself before stopping. -/
theorem C4_amended_disabled (api : CaptionsApi) (f g : Failure)
    (hget : api.get_transcript = .error f) (hf : f.kind = .disabled)
    (hlist : api.list_transcripts = .error g) (hg : g.kind = .disabled) :
    resolveChain api = (.errorDict "Transcripts are disabled for this video"
      (some "The video owner has disabled subtitles/closed captions. Please try a different video that has captions enabled."),
      [Step.directFetch, Step.listTracks]) := by
  rw [chain_list_err hget hlist]
  simp [handleOuter, hg]

/-- Claim C4 (witness): the amended theorem applied to `apiC4`. -/
theorem C4_witness :
    resolveChain apiC4 = (.errorDict "Transcripts are disabled for this video"
      (some "The video owner has disabled subtitles/closed captions. Please try a different video that has captions enabled."),
      [Step.directFetch, Step.listTracks]) :=
  C4_amended_disabled apiC4 ⟨.disabled, "Subtitles are disabled for this video"⟩
    ⟨.disabled, "Subtitles are disabled for this video"⟩ (by rfl) rfl (by rfl) rfl

theorem mem_dictInsert {m : List (String × BatchEntry)} {k : String} {v : BatchEntry}
    {p : String × BatchEntry} (h : p ∈ dictInsert m k v) : p ∈ m ∨ p = (k, v) := by
  unfold dictInsert at h
  split at h
  · rcases List.mem_map.mp h with ⟨q, hq, hqe⟩
    by_cases hqk : q.1 = k
    · right
      rw [if_pos hqk] at hqe
      exact hqe.symm
    · left
      rw [if_neg hqk] at hqe
      exact hqe ▸ hq
  · rcases List.mem_append.mp h with h1 | h1
    · exact Or.inl h1
    · right
      simpa using h1

theorem foldl_values (f : String → BatchEntry) :
    ∀ (urls : List String) (acc : List (String × BatchEntry)),
      (∀ p ∈ acc, p.2 = f p.1) →
      ∀ p ∈ urls.foldl (fun r u => dictInsert r u (f u)) acc, p.2 = f p.1 := by
  intro urls
  induction urls with
  | nil => exact fun acc hacc p hp => hacc p hp
  | cons u rest ih =>
      intro acc hacc p hp
      refine ih (dictInsert acc u (f u)) ?_ p hp
      intro q hq
      rcases mem_dictInsert hq with h1 | h1
      · exact hacc q h1
      · rw [h1]

/-- Every value stored by the batch loop is the classified resolver result
for its key. -/
theorem process_values (api : String → CaptionsApi) (urls : List String)
    {p : String × BatchEntry} (hp : p ∈ process_multiple_videos api urls) :
    p.2 = classify (get_transcript api p.1) :=
  foldl_values _ urls [] (by simp) p hp

theorem dictInsert_of_newKey {m : List (String × BatchEntry)} {k : String}
    {v : BatchEntry} (h : ∀ p ∈ m, p.1 ≠ k) :
    dictInsert m k v = m ++ [(k, v)] := by
  unfold dictInsert
  rw [if_neg]
  simp only [List.any_eq_true, decide_eq_true_eq, not_exists, not_and]
  exact h

theorem foldl_dictInsert_nodup (f : String → BatchEntry) :
    ∀ (urls : List String) (acc : List (String × BatchEntry)),
      urls.Nodup → (∀ u ∈ urls, ∀ p ∈ acc, p.1 ≠ u) →
      urls.foldl (fun r u => dictInsert r u (f u)) acc
        = acc ++ urls.map (fun u => (u, f u)) := by
  intro urls
  induction urls with
  | nil =>
      intro acc _ _
      simp
  | cons u rest ih =>
      intro acc hnd hkeys
      have hins : dictInsert acc u (f u) = acc ++ [(u, f u)] :=
        dictInsert_of_newKey (fun p hp => hkeys u (by simp) p hp)
      have hrest : rest.Nodup := (List.nodup_cons.mp hnd).2
      have hnotmem : u ∉ rest := (List.nodup_cons.mp hnd).1
      have hkeys2 : ∀ u' ∈ rest, ∀ p ∈ acc ++ [(u, f u)], p.1 ≠ u' := by
        intro u' hu' p hp
        rcases List.mem_append.mp hp with h1 | h1
        · exact hkeys u' (by simp [hu']) p h1
        · have hpe : p = (u, f u) := by simpa using h1
          rw [hpe]
          intro hcontra
          have hue : u = u' := hcontra
          exact hnotmem (by rwa [hue])
      simp only [List.foldl_cons, hins]
      rw [ih (acc ++ [(u, f u)]) hrest hkeys2]
      simp

/-- With pairwise-distinct URLs the batch dict is exactly the input-ordered
association of each URL to its classified result. -/
theorem process_nodup (api : String → CaptionsApi) (urls : List String)
    (h : urls.Nodup) :
    process_multiple_videos api urls
      = urls.map (fun u => (u, classify (get_transcript api u))) := by
  unfold process_multiple_videos
  rw [foldl_dictInsert_nodup _ urls [] h (by simp)]
  simp

/-- Fixture for claim C5: an oracle whose direct fetch always succeeds. -/
def api5 : String → CaptionsApi := fun _ => ⟨.ok [⟨0, "hi"⟩], .error ⟨.other, "x"⟩⟩

/-- Claim C5 is false as stated on batches with duplicate URLs: the batch
result is a dict keyed by URL, so identical URLs collapse to one entry.  For
the batch `["v=abcdefghijk", "v=abcdefghijk", "nope"]` (N = 3, one invalid
URL, the other two resolving successfully) the result has 2 entries, not 3. -/
theorem C5_counterexample :
    (∃ es, get_transcript api5 "v=abcdefghijk" = .entries es) ∧
    extract_video_id "nope" = none ∧
    (process_multiple_videos api5 ["v=abcdefghijk", "v=abcdefghijk", "nope"]).length = 2 :=
  ⟨⟨[⟨0, "hi"⟩], by rfl⟩, by rfl, by rfl⟩

/-- Claim C5 (amended): the batch result has one entry per DISTINCT input URL
(identical URLs collapse, keeping the first occurrence's position).  For a
batch of N pairwise-distinct URLs in which the URL at index `j` is invalid
and every other URL resolves successfully, the result has exactly N entries,
in input order: entry `i ≠ j` maps its URL to a success payload and entry `j`
maps its URL to the invalid-URL error. -/
theorem C5_amended_batch (api : String → CaptionsApi) (urls : List String) (j : ℕ)
    (hnd : urls.Nodup) (hj : j < urls.length)
    (hbad : extract_video_id (urls.get ⟨j, hj⟩) = none)
    (hgood : ∀ (i : ℕ) (hi : i < urls.length), i ≠ j →
      ∃ es, get_transcript api (urls.get ⟨i, hi⟩) = .entries es) :
    (process_multiple_videos api urls).length = urls.length ∧
    (∀ (i : ℕ) (hi : i < urls.length), i ≠ j →
      ∃ es, (process_multiple_videos api urls).get? i
        = some (urls.get ⟨i, hi⟩, .success es)) ∧
    (process_multiple_videos api urls).get? j
      = some (urls.get ⟨j, hj⟩, .error "Invalid YouTube URL format" "") := by
  have hmap := process_nodup api urls hnd
  refine ⟨by rw [hmap]; simp, ?_, ?_⟩
  · intro i hi hne
    rcases hgood i hi hne with ⟨es, hes⟩
    refine ⟨es, ?_⟩
    rw [List.get_eq_getElem] at hes
    rw [hmap, List.get?_map, List.get?_eq_get hi]
    simp [classify, hes]
  · have hinv : get_transcript api (urls.get ⟨j, hj⟩) = invalidUrlDict := by
      unfold get_transcript
      rw [hbad]
    rw [List.get_eq_getElem] at hinv
    rw [hmap, List.get?_map, List.get?_eq_get hj]
    simp [hinv, classify, invalidUrlDict]

/-- Claim C5 (witness): the amended theorem applied to a 2-URL distinct batch
with one invalid URL. -/
theorem C5_witness :
    (process_multiple_videos api5 ["v=abcdefghijk", "nope"]).length = 2 ∧
    (process_multiple_videos api5 ["v=abcdefghijk", "nope"]).get? 1
      = some ("nope", .error "Invalid YouTube URL format" "") := by
  have hgood : ∀ (i : ℕ) (hi : i < (["v=abcdefghijk", "nope"] : List String).length),
      i ≠ 1 → ∃ es,
        get_transcript api5 ((["v=abcdefghijk", "nope"] : List String).get ⟨i, hi⟩)
          = .entries es := by
    intro i hi hne
    have hi2 : i < 2 := by simpa using hi
    interval_cases i
    · exact ⟨[⟨0, "hi"⟩], by rfl⟩
    · exact absurd rfl hne
  have h := C5_amended_batch api5 ["v=abcdefghijk", "nope"] 1 (by decide)
    (by decide) (by rfl) hgood
  exact ⟨h.1, h.2.2⟩

theorem searchBy_append_isSome (m : List Char → Option (List Char)) :
    ∀ (pre l : List Char), (m l).isSome = true →
      (searchBy m (pre ++ l)).isSome = true := by
  intro pre
  induction pre with
  | nil =>
      intro l hm
      cases l with
      | nil => simpa [searchBy] using hm
      | cons c rest =>
          rcases ho : m (c :: rest) with _ | r
          · rw [ho] at hm
            simp at hm
          · simp [searchBy, ho]
  | cons c pre ih =>
      intro l hm
      rcases ho : m (c :: (pre ++ l)) with _ | r
      · simpa [searchBy, ho] using ih l hm
      · simp [searchBy, ho]

theorem anySuffix_exists {p : List Char → Bool} :
    ∀ {l : List Char}, anySuffix p l = true →
      ∃ pre suf, l = pre ++ suf ∧ p suf = true := by
  intro l
  induction l with
  | nil =>
      intro h
      exact ⟨[], [], rfl, by simpa [anySuffix] using h⟩
  | cons c rest ih =>
      intro h
      simp only [anySuffix] at h
      rcases Bool.or_eq_true_iff.mp h with hhead | htail
      · exact ⟨[], c :: rest, rfl, hhead⟩
      · rcases ih htail with ⟨pre, suf, heq, hp⟩
        exact ⟨c :: pre, suf, by rw [heq]; rfl, hp⟩

theorem p1_of_watch {suf : List Char} (h : watchShapeAt suf = true) :
    ∃ pre t, suf = pre ++ ('v' :: '=' :: t) ∧ (takeId11 t).isSome = true := by
  unfold watchShapeAt at h
  rw [Bool.and_eq_true] at h
  rcases h with ⟨hpre, hid⟩
  rcases List.isPrefixOf_iff_prefix.mp hpre with ⟨t, ht⟩
  refine ⟨['w', 'a', 't', 'c', 'h', '?'], t, ?_, ?_⟩
  · rw [← ht]
    rfl
  · rw [← ht] at hid
    exact hid

theorem p1_of_youtuBe {suf : List Char} (h : youtuBeShapeAt suf = true) :
    ∃ pre t, suf = pre ++ ('/' :: t) ∧ (takeId11 t).isSome = true := by
  unfold youtuBeShapeAt at h
  rw [Bool.and_eq_true] at h
  rcases h with ⟨hpre, hid⟩
  rcases List.isPrefixOf_iff_prefix.mp hpre with ⟨t, ht⟩
  refine ⟨['y', 'o', 'u', 't', 'u', '.', 'b', 'e'], t, ?_, ?_⟩
  · rw [← ht]
    rfl
  · rw [← ht] at hid
    exact hid

theorem p1_of_embed {suf : List Char} (h : embedShapeAt suf = true) :
    ∃ pre t, suf = pre ++ ('/' :: t) ∧ (takeId11 t).isSome = true := by
  unfold embedShapeAt at h
  rw [Bool.and_eq_true] at h
  rcases h with ⟨hpre, hid⟩
  rcases List.isPrefixOf_iff_prefix.mp hpre with ⟨t, ht⟩
  refine ⟨['e', 'm', 'b', 'e', 'd'], t, ?_, ?_⟩
  · rw [← ht]
    rfl
  · rw [← ht] at hid
    exact hid

theorem extract_isSome_of_p1 {s : String}
    (h : (searchBy matchP1At s.data).isSome = true) :
    (extract_video_id s).isSome = true := by
  unfold extract_video_id
  rcases ho : searchBy matchP1At s.data with _ | v
  · rw [ho] at h
    simp at h
  · simp

theorem dictInsert_hasKey_self (m : List (String × BatchEntry)) (k : String)
    (v : BatchEntry) : ∃ w, (k, w) ∈ dictInsert m k v := by
  unfold dictInsert
  split
  · rename_i hany
    rcases List.any_eq_true.mp hany with ⟨p, hp, hpk⟩
    simp only [decide_eq_true_eq] at hpk
    exact ⟨v, List.mem_map.mpr ⟨p, hp, by rw [if_pos hpk]⟩⟩
  · exact ⟨v, by simp⟩

theorem dictInsert_hasKey_mono {m : List (String × BatchEntry)} {k' : String}
    (hk : ∃ w, (k', w) ∈ m) (k : String) (v : BatchEntry) :
    ∃ w, (k', w) ∈ dictInsert m k v := by
  rcases hk with ⟨w, hw⟩
  unfold dictInsert
  split
  · by_cases he : k' = k
    · subst he
      exact ⟨v, List.mem_map.mpr ⟨(k', w), hw, by rw [if_pos rfl]⟩⟩
    · exact ⟨w, List.mem_map.mpr ⟨(k', w), hw, by rw [if_neg he]⟩⟩
  · exact ⟨w, List.mem_append_left _ hw⟩

theorem process_hasKey (api : String → CaptionsApi) :
    ∀ (urls : List String) (acc : List (String × BatchEntry)) (w : String),
      (w ∈ urls ∨ ∃ v, (w, v) ∈ acc) →
      ∃ v, (w, v) ∈ urls.foldl
        (fun r u => dictInsert r u (classify (get_transcript api u))) acc := by
  intro urls
  induction urls with
  | nil =>
      intro acc w h
      rcases h with h | h
      · simp at h
      · exact h
  | cons u rest ih =>
      intro acc w h
      apply ih (dictInsert acc u (classify (get_transcript api u))) w
      rcases h with h | h
      · rcases List.mem_cons.mp h with he | hm
        · subst he
          exact Or.inr (dictInsert_hasKey_self acc w _)
        · exact Or.inl hm
      · exact Or.inr (dictInsert_hasKey_mono h _ _)

/-- Every input URL of a batch has an entry in the batch result. -/
theorem process_mem_of_mem (api : String → CaptionsApi) (urls : List String)
    (w : String) (hw : w ∈ urls) :
    ∃ v, (w, v) ∈ process_multiple_videos api urls :=
  process_hasKey api urls [] w (Or.inl hw)

/-- Claim C6 is false as stated: the code's first regex accepts `v=` or ANY
slash followed by 11 identifier characters, a strict superset of the spec's
three shapes.  The string `"/abcdefghijk"` matches none of `watch?v=`,
`youtu.be/`, `embed/`, yet `extract_video_id` returns the identifier
`"abcdefghijk"` instead of `None`. -/
theorem C6_counterexample :
    specRecognized "/abcdefghijk" = false ∧
    extract_video_id "/abcdefghijk" = some "abcdefghijk" :=
  ⟨by rfl, by rfl⟩

/-- Claim C6 (amended): `extract_video_id` is total and returns `None` rather
than raising precisely when none of the CODE's three patterns match; those
patterns are a strict superset of the spec's three shapes, so every
spec-recognized URL yields an identifier, but some strings outside the spec's
shapes do too.  Whenever extraction yields `None` for a batch URL, the batch
result marks that URL with the invalid-URL error and still holds an entry for
every URL of the batch. -/
theorem C6_amended_url_rules :
    (∀ s : String, specRecognized s = true → (extract_video_id s).isSome = true) ∧
    (∀ (api : String → CaptionsApi) (urls : List String) (u : String),
      u ∈ urls → extract_video_id u = none →
      ((u, BatchEntry.error "Invalid YouTube URL format" "")
          ∈ process_multiple_videos api urls ∧
        ∀ w ∈ urls, ∃ v, (w, v) ∈ process_multiple_videos api urls)) := by
  constructor
  · intro s h
    unfold specRecognized at h
    rcases Bool.or_eq_true_iff.mp h with h12 | h3
    · rcases Bool.or_eq_true_iff.mp h12 with h1 | h2
      · rcases anySuffix_exists h1 with ⟨pre, suf, heq, hsh⟩
        rcases p1_of_watch hsh with ⟨pre2, t, hsuf, hid⟩
        apply extract_isSome_of_p1
        have hdecomp : s.data = (pre ++ pre2) ++ ('v' :: '=' :: t) := by
          rw [heq, hsuf, List.append_assoc]
        rw [hdecomp]
        apply searchBy_append_isSome
        simpa [matchP1At] using hid
      · rcases anySuffix_exists h2 with ⟨pre, suf, heq, hsh⟩
        rcases p1_of_youtuBe hsh with ⟨pre2, t, hsuf, hid⟩
        apply extract_isSome_of_p1
        have hdecomp : s.data = (pre ++ pre2) ++ ('/' :: t) := by
          rw [heq, hsuf, List.append_assoc]
        rw [hdecomp]
        apply searchBy_append_isSome
        simpa [matchP1At] using hid
    · rcases anySuffix_exists h3 with ⟨pre, suf, heq, hsh⟩
      rcases p1_of_embed hsh with ⟨pre2, t, hsuf, hid⟩
      apply extract_isSome_of_p1
      have hdecomp : s.data = (pre ++ pre2) ++ ('/' :: t) := by
        rw [heq, hsuf, List.append_assoc]
      rw [hdecomp]
      apply searchBy_append_isSome
      simpa [matchP1At] using hid
  · intro api urls u hu hnone
    have hmem := process_mem_of_mem api urls u hu
    rcases hmem with ⟨v, hv⟩
    have hval := process_values api urls hv
    have hcl : classify (get_transcript api u)
        = BatchEntry.error "Invalid YouTube URL format" "" := by
      unfold get_transcript
      rw [hnone]
      rfl
    rw [hcl] at hval
    refine ⟨by rw [← hval]; exact hv, ?_⟩
    intro w hw
    exact process_mem_of_mem api urls w hw

/-- Fixture for claim C6's witness. -/
def api6 : String → CaptionsApi := fun _ => ⟨.ok [⟨0, "w"⟩], .error ⟨.other, "x"⟩⟩

/-- Claim C6 (witness): the amended theorem applied to a spec-shaped watch URL
and to a one-element batch with an unparseable URL. -/
theorem C6_witness :
    (extract_video_id "https://www.youtube.com/watch?v=dQw4w9WgXcQ").isSome = true ∧
    ("nope", BatchEntry.error "Invalid YouTube URL format" "")
      ∈ process_multiple_videos api6 ["nope"] := by
  constructor
  · exact C6_amended_url_rules.1 "https://www.youtube.com/watch?v=dQw4w9WgXcQ" (by rfl)
  · exact (C6_amended_url_rules.2 api6 ["nope"] "nope" (by simp) (by rfl)).1

/-- Python float floor-division agrees with integer division of the floor. -/
theorem pyMinutes_floor (q : ℚ) : pyMinutes q = ⌊q⌋ / 60 := by
  unfold pyMinutes
  rw [Int.floor_eq_iff]
  have hfl : (⌊q⌋ : ℚ) ≤ q := Int.floor_le q
  have hlt : q < ⌊q⌋ + 1 := Int.lt_floor_add_one q
  have hdec : 60 * (⌊q⌋ / 60) + ⌊q⌋ % 60 = ⌊q⌋ := Int.ediv_add_emod ⌊q⌋ 60
  have hmod0 : (0 : ℤ) ≤ ⌊q⌋ % 60 := Int.emod_nonneg _ (by norm_num)
  have hmodlt : ⌊q⌋ % 60 < 60 := Int.emod_lt_of_pos _ (by norm_num)
  constructor
  · rw [le_div_iff (by norm_num : (0 : ℚ) < 60)]
    have hle : ((60 * (⌊q⌋ / 60) : ℤ) : ℚ) ≤ ((⌊q⌋ : ℤ) : ℚ) :=
      Int.cast_le.mpr (by omega)
    push_cast at hle
    linarith
  · rw [div_lt_iff (by norm_num : (0 : ℚ) < 60)]
    have hlt2 : ((⌊q⌋ + 1 : ℤ) : ℚ) ≤ ((60 * (⌊q⌋ / 60 + 1) : ℤ) : ℚ) :=
      Int.cast_le.mpr (by omega)
    push_cast at hlt2
    linarith

/-- Python float modulo, floored, agrees with the integer modulo of the floor. -/
theorem pySeconds_mod (q : ℚ) : pySeconds q = ⌊q⌋ % 60 := by
  unfold pySeconds
  have h1 : (60 : ℚ) * ((pyMinutes q : ℤ) : ℚ) = ((60 * pyMinutes q : ℤ) : ℚ) := by
    push_cast
    ring
  rw [h1, Int.floor_sub_int, pyMinutes_floor]
  omega

theorem foldl_strJoin {α : Type} (g : α → String) :
    ∀ (l : List α) (acc : String),
      l.foldl (fun a e => a ++ g e) acc = acc ++ strJoin (l.map g) := by
  intro l
  induction l with
  | nil =>
      intro acc
      simp [strJoin]
  | cons e rest ih =>
      intro acc
      simp only [List.foldl_cons, List.map_cons, strJoin]
      rw [ih (acc ++ g e), String.append_assoc]

/-- Fixture metadata for claim C7. -/
def m7 : VideoMetadata := ⟨"Example video", "Example channel", "https://example"⟩

/-- Claim C7: `format_transcript` is a pure function equal, on every input, to
the spec's rendering — the fixed banner and `Video:`/`Channel:`/`URL:` lines,
then one `[MM:SS] text` line per entry in order, where MM:SS comes from
`start` truncated (not rounded) to whole seconds, minutes not reduced modulo
60, both fields zero-padded to two digits — and in particular an entry with
`start = 125.9` renders as `[02:05]`. -/
theorem C7_format :
    (∀ (t : List CaptionEntry) (m : VideoMetadata),
      format_transcript t m = specFormat t m) ∧
    format_transcript [⟨1259/10, "example line"⟩] m7
      = formatHeader m7 ++ "[02:05] example line\n" := by
  have hline : ∀ e : CaptionEntry,
      "[" ++ timestamp e ++ "] " ++ e.text ++ "\n" = specLine e := by
    intro e
    simp [specLine, timestamp, pyMinutes_floor, pySeconds_mod, String.append_assoc]
  have hfold : ∀ (t : List CaptionEntry) (m : VideoMetadata),
      format_transcript t m = formatHeader m
        ++ strJoin (t.map (fun e => "[" ++ timestamp e ++ "] " ++ e.text ++ "\n")) := by
    intro t m
    unfold format_transcript
    have hfun : (fun (acc : String) (entry : CaptionEntry) =>
          acc ++ "[" ++ timestamp entry ++ "] " ++ entry.text ++ "\n")
        = fun acc entry =>
            acc ++ ("[" ++ timestamp entry ++ "] " ++ entry.text ++ "\n") := by
      funext a e
      simp [String.append_assoc]
    rw [hfun, foldl_strJoin]
  constructor
  · intro t m
    rw [hfold,
      show (fun e : CaptionEntry => "[" ++ timestamp e ++ "] " ++ e.text ++ "\n")
        = specLine from funext hline]
    rfl
  · rw [hfold]
    have h1 : pyMinutes ((1259 : ℚ) / 10) = 2 := by
      unfold pyMinutes
      norm_num
    have h2 : pySeconds ((1259 : ℚ) / 10) = 5 := by
      unfold pySeconds pyMinutes
      norm_num
    have hts : timestamp ⟨1259 / 10, "example line"⟩ = "02:05" := by
      simp only [timestamp, h1, h2]
      rfl
    simp only [List.map_cons, List.map_nil, strJoin, hts]
    rfl

/-- Claim C8: `get_video_metadata` is total (the embedding returns a record on
every outcome — in the source, the whole body sits under one `try` whose
handler returns the fallbacks): the `url` field is always the canonical watch
URL; any fetch failure (network error or non-200) yields exactly the
placeholder record; a missing `og:title` yields the `"Video {id}"` title
placeholder and a missing `og:site_name` yields the `"Unknown Channel"`
placeholder. -/
theorem C8_metadata (video_id : String) :
    (∀ outcome, (get_video_metadata video_id outcome).url
      = "https://www.youtube.com/watch?v=" ++ video_id) ∧
    (∀ msg, get_video_metadata video_id (.failure msg)
      = ⟨"Video " ++ video_id, "Unknown Channel",
         "https://www.youtube.com/watch?v=" ++ video_id⟩) ∧
    (∀ os, (get_video_metadata video_id (.success ⟨none, os⟩)).title
      = "Video " ++ video_id) ∧
    (∀ ot, (get_video_metadata video_id (.success ⟨ot, none⟩)).channel
      = "Unknown Channel") := by
  refine ⟨?_, ?_, ?_, ?_⟩
  · intro outcome
    rcases outcome with msg | ⟨ot, os⟩
    · rfl
    · rcases ot with _ | ⟨_ | tc⟩ <;> rcases os with _ | ⟨_ | sc⟩ <;> rfl
  · intro msg
    rfl
  · intro os
    rcases os with _ | ⟨_ | sc⟩ <;> rfl
  · intro ot
    rcases ot with _ | ⟨_ | tc⟩ <;> rfl

/-- Fixture oracle for claim C9. -/
def api9 : String → CaptionsApi := fun _ => ⟨.error ⟨.other, "x"⟩, .error ⟨.other, "x"⟩⟩

/-- Claim C9: a `POST` body whose `urls` key is absent or holds the empty list
is answered with the 400 response `{"error": "No URLs provided"}`, and the
batch orchestrator is never invoked (the handler's invocation trace is
empty). -/
theorem C9_empty_urls (api : String → CaptionsApi) (req : ProcessRequest)
    (h : req.urls = none ∨ req.urls = some []) :
    process_videos api req = (.badRequest "No URLs provided", []) := by
  rcases req with ⟨urls⟩
  rcases h with h | h <;> simp only at h <;> subst h <;> rfl

/-- Claim C9 (witness): the theorem applied to a body with no `urls` key. -/
theorem C9_witness :
    process_videos api9 ⟨none⟩ = (.badRequest "No URLs provided", []) :=
  C9_empty_urls api9 ⟨none⟩ (Or.inl rfl)

/-- Claim C10: `get_transcript` is total in the embedding (the source wraps the
whole body in handlers for every exception class) and its result is exactly
one of the two shapes — a caption list or an `"error"` dict — never both; the
batch loop's `isinstance(_, list)` classification is therefore exact: a batch
entry is a success payload if and only if the resolver returned a caption
list for that URL. -/
theorem C10_result_shape (api : String → CaptionsApi) (url : String) :
    ((∃ es, get_transcript api url = .entries es)
      ↔ ¬ ∃ e d, get_transcript api url = .errorDict e d) ∧
    (∀ (urls : List String) (v : BatchEntry),
      (url, v) ∈ process_multiple_videos api urls →
      ((∃ es, v = .success es) ↔ ∃ es, get_transcript api url = .entries es)) := by
  constructor
  · rcases hr : get_transcript api url with es | ⟨e, d⟩ <;> simp [hr]
  · intro urls v hv
    have hval : v = classify (get_transcript api url) := process_values api urls hv
    rcases hr : get_transcript api url with es | ⟨e, d⟩
    · rw [hr] at hval
      simp only [classify] at hval
      subst hval
      simp [hr]
    · rw [hr] at hval
      simp only [classify] at hval
      subst hval
      simp [hr]

/-- Fixture oracle for claim C10's witness. -/
def api10 : String → CaptionsApi := fun _ => ⟨.ok [⟨0, "hi"⟩], .error ⟨.other, "x"⟩⟩

/-- Claim C10 (witness): the theorem applied to a concrete one-URL batch whose
resolver result is a caption list. -/
theorem C10_witness :
    (∃ es, BatchEntry.success [⟨(0 : ℚ), "hi"⟩] = BatchEntry.success es)
      ↔ ∃ es, get_transcript api10 "v=abcdefghijk" = PyResult.entries es := by
  refine (C10_result_shape api10 "v=abcdefghijk").2 ["v=abcdefghijk"] _ ?_
  have hres : process_multiple_videos api10 ["v=abcdefghijk"]
      = [("v=abcdefghijk", BatchEntry.success [⟨(0 : ℚ), "hi"⟩])] := by rfl
  rw [hres]
  simp

end YT
